import Mathlib

/-
Verification of the claudeusage tray application (Win32 C sources).

The C sources are shallowly embedded below:
  * cJSON (vendored JSON library used by api.c and config.c) is modelled by
    the inductive `Json` together with an executable parser `cJSON_Parse`
    and the accessors `cJSON_GetObjectItem` / `Json.isNull`.
  * http.c      -> `http_get` over an explicit `NetBehavior` describing what
                   the network and the allocator do during one request.
  * api.c       -> `parse_usage_field`, `api_parse_body`, `api_fetch_usage`.
  * config.c (source carried in DESIGN.md) -> `cred_token_read` /
    `config_read_access_token`; the tier reader is modelled from the spec.
  * popup.c     -> `bar_color`, `draw_progress_bar`, `format_subscription_type`.
  * util.c      -> `util_format_time_remaining`.
  * main.c      -> `update_tray_icon`, `AppSt`, `do_fetch`, `run_cycles`.

C doubles are modelled as rationals: the code under scrutiny only copies
numbers verbatim and compares them against small integer thresholds, so no
floating-point rounding is involved in any claim. C buffers are modelled as
Lean strings, with the source's explicit truncations (`strncpy`) kept.
-/

/- JSON values as produced by cJSON. -/
inductive Json where
  | null
  | bool (b : Bool)
  | num (x : ℚ)
  | str (s : String)
  | arr (elems : List Json)
  | obj (fields : List (String × Json))

/- cJSON_IsNull. -/
def Json.isNull : Json → Bool
  | Json.null => true
  | _ => false

/- cJSON_GetObjectItem: first field with the given name of an object value,
   NULL otherwise. cJSON compares names case-insensitively; every key the
   application ever looks up is a fixed lower-case literal, so exact string
   comparison is an equivalent model here. -/
def cJSON_GetObjectItem (j : Json) (name : String) : Option Json :=
  match j with
  | Json.obj fields =>
    match fields.find? (fun f => f.1 == name) with
    | some f => some f.2
    | none => none
  | _ => none

/- cJSON skips every byte with value <= 32 as whitespace. -/
def skipWs (s : List Char) : List Char :=
  s.dropWhile (fun c => c.toNat ≤ 32)

def hexVal (c : Char) : Option Nat :=
  if c.isDigit then some (c.toNat - 48)
  else if 97 ≤ c.toNat ∧ c.toNat ≤ 102 then some (c.toNat - 87)
  else if 65 ≤ c.toNat ∧ c.toNat ≤ 70 then some (c.toNat - 55)
  else none

/- The escape sequences accepted by cJSON's parse_string. -/
def escChar (c : Char) : Option Char :=
  if c = '\"' then some '\"'
  else if c = '\\' then some '\\'
  else if c = '/' then some '/'
  else if c = 'b' then some (Char.ofNat 8)
  else if c = 'f' then some (Char.ofNat 12)
  else if c = 'n' then some '\n'
  else if c = 'r' then some '\r'
  else if c = 't' then some '\t'
  else none

/- Body of a JSON string literal after the opening quote.  \uXXXX is decoded
   to the corresponding code point (surrogate-pair recombination is not
   modelled; no claim involves it). -/
def parseStringRest : List Char → Option (List Char × List Char)
  | [] => none
  | c :: rest =>
    if c = '\"' then some ([], rest)
    else if c = '\\' then
      match rest with
      | [] => none
      | e :: rest2 =>
        if e = 'u' then
          match rest2 with
          | h1 :: h2 :: h3 :: h4 :: rest3 =>
            match hexVal h1, hexVal h2, hexVal h3, hexVal h4 with
            | some a, some b, some c2, some d =>
              match parseStringRest rest3 with
              | some p => some (Char.ofNat (((a * 16 + b) * 16 + c2) * 16 + d) :: p.1, p.2)
              | none => none
            | _, _, _, _ => none
          | _ => none
        else
          match escChar e with
          | some ch =>
            match parseStringRest rest2 with
            | some p => some (ch :: p.1, p.2)
            | none => none
          | none => none
    else
      match parseStringRest rest with
      | some p => some (c :: p.1, p.2)
      | none => none

def digitsVal (ds : List Char) : Nat :=
  ds.foldl (fun a c => a * 10 + (c.toNat - 48)) 0

/- cJSON parse_number: optional sign, digits, optional fraction, optional
   exponent; the double value is modelled exactly as a rational. -/
def parseNumber (s : List Char) : Option (Json × List Char) :=
  let (neg, s1) :=
    match s with
    | c :: rest => if c = '-' then (true, rest) else (false, s)
    | [] => (false, s)
  let ds := s1.takeWhile Char.isDigit
  let s2 := s1.dropWhile Char.isDigit
  if ds.isEmpty then none
  else
    let intPart : ℚ := (digitsVal ds : ℚ)
    let (fracPart, s3) :=
      match s2 with
      | c :: rest =>
        if c = '.' then
          let fs := rest.takeWhile Char.isDigit
          ((digitsVal fs : ℚ) / ((10 : ℚ) ^ fs.length), rest.dropWhile Char.isDigit)
        else ((0 : ℚ), s2)
      | [] => ((0 : ℚ), s2)
    let (scale, s4) :=
      match s3 with
      | c :: rest =>
        if c = 'e' ∨ c = 'E' then
          let (eneg, r1) :=
            match rest with
            | d :: r => if d = '-' then (true, r) else if d = '+' then (false, r) else (false, rest)
            | [] => (false, rest)
          let es := r1.takeWhile Char.isDigit
          let e := digitsVal es
          ((if eneg then (1 : ℚ) / (10 : ℚ) ^ e else (10 : ℚ) ^ e), r1.dropWhile Char.isDigit)
        else ((1 : ℚ), s3)
      | [] => ((1 : ℚ), s3)
    let v := (intPart + fracPart) * scale
    some (Json.num (if neg then -v else v), s4)

mutual

/- cJSON parse_value on the remaining input. -/
def parseVal (fuel : Nat) (s : List Char) : Option (Json × List Char) :=
  match fuel with
  | 0 => none
  | fuel + 1 =>
    match skipWs s with
    | 'n' :: 'u' :: 'l' :: 'l' :: rest => some (Json.null, rest)
    | 't' :: 'r' :: 'u' :: 'e' :: rest => some (Json.bool true, rest)
    | 'f' :: 'a' :: 'l' :: 's' :: 'e' :: rest => some (Json.bool false, rest)
    | '\"' :: rest =>
      match parseStringRest rest with
      | some p => some (Json.str (String.mk p.1), p.2)
      | none => none
    | '[' :: rest => parseElems fuel rest []
    | '\x7b' :: rest => parseFields fuel rest []
    | c :: rest =>
      if c = '-' ∨ c.isDigit then parseNumber (c :: rest) else none
    | [] => none

/- Elements of an array after '[' or after a ','. -/
def parseElems (fuel : Nat) (s : List Char) (acc : List Json) : Option (Json × List Char) :=
  match fuel with
  | 0 => none
  | fuel + 1 =>
    match skipWs s with
    | ']' :: rest =>
      if acc.isEmpty then some (Json.arr [], rest) else none
    | s1 =>
      match parseVal fuel s1 with
      | none => none
      | some (v, r) =>
        match skipWs r with
        | ',' :: r2 => parseElems fuel r2 (acc ++ [v])
        | ']' :: r2 => some (Json.arr (acc ++ [v]), r2)
        | _ => none

/- Members of an object after the opening brace or after a ','. -/
def parseFields (fuel : Nat) (s : List Char) (acc : List (String × Json)) :
    Option (Json × List Char) :=
  match fuel with
  | 0 => none
  | fuel + 1 =>
    match skipWs s with
    | '\x7d' :: rest =>
      if acc.isEmpty then some (Json.obj [], rest) else none
    | '\"' :: rest =>
      match parseStringRest rest with
      | none => none
      | some (key, r) =>
        match skipWs r with
        | ':' :: r2 =>
          match parseVal fuel r2 with
          | none => none
          | some (v, r3) =>
            match skipWs r3 with
            | ',' :: r4 => parseFields fuel r4 (acc ++ [(String.mk key, v)])
            | '\x7d' :: r4 => some (Json.obj (acc ++ [(String.mk key, v)]), r4)
            | _ => none
        | _ => none
    | _ => none

end

/- cJSON_Parse: parse one value from the buffer; with the library's default
   options trailing bytes after the value are ignored.  An empty or
   all-whitespace buffer fails. -/
def cJSON_Parse (s : String) : Option Json :=
  match parseVal (s.length + 1) s.data with
  | some (j, _) => some j
  | none => none


/- ------------------------------------------------------------------ -/
/- http.c                                                             -/
/- ------------------------------------------------------------------ -/

/- Result of `http_get`, mirroring the HttpResponse struct of http.h:
   `body = none` models a NULL body pointer. -/
structure HttpResponse where
  status_code : Nat
  body : Option String
  error_code : Nat

/- What the environment (network + allocator) does during one `http_get`
   call.  `sendError` covers every failure before the response headers are
   in (WinHttpConnect / OpenRequest / SendRequest / ReceiveResponse): the
   C code stores GetLastError() and jumps to cleanup with status 0 and no
   body.  After the headers, `status` is the queried status code,
   `chunks` are the successful WinHttpReadData reads up to EOF (a read or
   QueryDataAvailable failure merely breaks the loop, which is the same as
   a shorter chunk list), `mallocFail` is the initial 4 KB malloc failing
   (error ERROR_NOT_ENOUGH_MEMORY = 8), and `reallocFail` is a growth
   realloc failing, after which the C code frees the buffer and leaves the
   loop with body NULL and error_code still 0. -/
structure NetBehavior where
  sendError : Option Nat
  status : Nat
  chunks : List String
  mallocFail : Bool
  reallocFail : Bool

/- http_get of http.c.  The extra `headers` argument carries the request
   headers built by the caller; the response itself is dictated by the
   environment, not by the headers. -/
def http_get (net : NetBehavior) (_headers : String) : HttpResponse :=
  match net.sendError with
  | some ec => { status_code := 0, body := none, error_code := ec }
  | none =>
    if net.mallocFail then
      { status_code := net.status, body := none, error_code := 8 }
    else if net.reallocFail then
      { status_code := net.status, body := none, error_code := 0 }
    else
      { status_code := net.status, body := some (String.join net.chunks), error_code := 0 }

/- ------------------------------------------------------------------ -/
/- api.c                                                              -/
/- ------------------------------------------------------------------ -/

/- The UsageData struct of api.h.  Doubles are rationals, char buffers are
   strings, BOOLs are Bools. -/
structure UsageData where
  five_hour_util : ℚ
  five_hour_resets : String
  seven_day_util : ℚ
  seven_day_resets : String
  opus_util : ℚ
  sonnet_util : ℚ
  extra_enabled : Bool
  extra_limit : ℚ
  extra_used : ℚ
  subscription_type : String
  valid : Bool
  error : String
  deriving DecidableEq

/- memset(out, 0, sizeof *out): every number 0, every buffer empty,
   every BOOL FALSE. -/
def zeroUsage : UsageData :=
  { five_hour_util := 0, five_hour_resets := "", seven_day_util := 0,
    seven_day_resets := "", opus_util := 0, sonnet_util := 0,
    extra_enabled := false, extra_limit := 0, extra_used := 0,
    subscription_type := "", valid := false, error := "" }

/- The state of *out at the top of api_fetch_usage: memset to zero, then
   the four utilizations set to the sentinel -1. -/
def apiBase : UsageData :=
  { zeroUsage with five_hour_util := -1, seven_day_util := -1,
                   opus_util := -1, sonnet_util := -1 }

/- The fixed header block built by api_fetch_usage (the %hs directive
   splices the narrow token into the wide format string). -/
def api_request_headers (access_token : String) : String :=
  "Authorization: Bearer " ++ access_token ++ "\r\n" ++
  "anthropic-beta: oauth-2025-04-20\r\n" ++
  "Accept: application/json\r\n"

/- parse_usage_field of api.c: *util = -1 and resets = "" unless the named
   field exists, is not null, and provides the sub-fields.  strncpy copies
   at most resets_len - 1 characters into the zeroed buffer. -/
def parse_usage_field (root : Json) (name : String) (resets_len : Nat) : ℚ × String :=
  match cJSON_GetObjectItem root name with
  | none => (-1, "")
  | some field =>
    if field.isNull then (-1, "")
    else
      let util : ℚ :=
        match cJSON_GetObjectItem field ("utilization") with
        | some (Json.num x) => x
        | _ => -1
      let resets : String :=
        match cJSON_GetObjectItem field ("resets_at") with
        | some (Json.str s) => String.mk (s.data.take (resets_len - 1))
        | _ => ""
      (util, resets)

/- The tail of api_fetch_usage once cJSON_Parse has succeeded.  Starting
   value is apiBase (the memset plus -1 sentinels); note that
   subscription_type remains the empty string of the memset. -/
def api_parse_body (root : Json) : UsageData :=
  let fh := parse_usage_field root ("five_hour") 64
  let sd := parse_usage_field root ("seven_day") 64
  let opus : ℚ :=
    match cJSON_GetObjectItem root ("seven_day_opus") with
    | some o =>
      if o.isNull then apiBase.opus_util
      else
        match cJSON_GetObjectItem o ("utilization") with
        | some (Json.num x) => x
        | _ => apiBase.opus_util
    | none => apiBase.opus_util
  let sonnet : ℚ :=
    match cJSON_GetObjectItem root ("seven_day_sonnet") with
    | some o =>
      if o.isNull then apiBase.sonnet_util
      else
        match cJSON_GetObjectItem o ("utilization") with
        | some (Json.num x) => x
        | _ => apiBase.sonnet_util
    | none => apiBase.sonnet_util
  let extra : Bool × ℚ × ℚ :=
    match cJSON_GetObjectItem root ("extra_usage") with
    | some e =>
      if e.isNull then (false, 0, 0)
      else
        (true,
         (match cJSON_GetObjectItem e ("monthly_limit") with
          | some (Json.num x) => x
          | _ => 0),
         (match cJSON_GetObjectItem e ("used_credits") with
          | some (Json.num x) => x
          | _ => 0))
    | none => (false, 0, 0)
  { apiBase with
    five_hour_util := fh.1, five_hour_resets := fh.2,
    seven_day_util := sd.1, seven_day_resets := sd.2,
    opus_util := opus, sonnet_util := sonnet,
    extra_enabled := extra.1, extra_limit := extra.2.1, extra_used := extra.2.2,
    valid := true }

/- The classification section of api_fetch_usage, applied to the response
   of http_get.  Checked in source order: transport error, 401, 403, other
   non-200, NULL body, parse failure, success. -/
def api_handle_response (resp : HttpResponse) : UsageData :=
  if resp.error_code ≠ 0 then
    let ec := resp.error_code
    { apiBase with error :=
        if ec = 12029 then "Cannot connect to api.anthropic.com"
        else if ec = 12002 then "Request timed out"
        else if ec = 12007 then "DNS resolution failed"
        else "Network error (code " ++ toString ec ++ ")" }
  else if resp.status_code = 401 then
    { apiBase with error := "Token expired - reopen Claude Code" }
  else if resp.status_code = 403 then
    { apiBase with error := "Access denied" }
  else if resp.status_code ≠ 200 then
    { apiBase with error := "API error (HTTP " ++ toString resp.status_code ++ ")" }
  else
    match resp.body with
    | none => { apiBase with error := "Empty response" }
    | some b =>
      match cJSON_Parse b with
      | none => { apiBase with error := "JSON parse error" }
      | some root => api_parse_body root

/- api_fetch_usage of api.c.  The `_out` argument is the caller's UsageData
   buffer: the first statement of the C function memsets it to zero, so its
   previous contents (including a subscription_type the caller has just
   read) are discarded unconditionally. -/
def api_fetch_usage (access_token : String) (net : NetBehavior) (_out : UsageData) :
    UsageData :=
  api_handle_response (http_get net (api_request_headers access_token))

/- ------------------------------------------------------------------ -/
/- config.c (function bodies carried verbatim in DESIGN.md)           -/
/- ------------------------------------------------------------------ -/

/- The outcome of one attempt to extract claudeAiOauth.accessToken from the
   credentials file.  `content = none` models an unreadable/absent file;
   files over 8192 bytes are rejected; then the JSON must parse and provide
   the nested string field.  `some t` is returned exactly when the C
   function returns TRUE, with `t` what strncpy leaves in the 512-byte
   token buffer. -/
def cred_token_read (content : Option String) : Option String :=
  match content with
  | none => none
  | some s =>
    if s.length > 8192 then none
    else
      match cJSON_Parse s with
      | none => none
      | some root =>
        match cJSON_GetObjectItem root ("claudeAiOauth") with
        | none => none
        | some oauth =>
          match cJSON_GetObjectItem oauth ("accessToken") with
          | some (Json.str t) => some (String.mk (t.data.take 511))
          | _ => none

/- config_read_access_token writes into the caller's buffer only on
   success and returns FALSE leaving the buffer untouched otherwise; this
   returns the buffer contents after the call. -/
def config_read_access_token (content : Option String) (buf : String) : String :=
  (cred_token_read content).getD buf

/- Modelled from the spec: the body of config_read_subscription_type is not
   among the sources (only its declaration in config.h and its call site in
   main.c are).  Per the spec it reads the same credentials file and
   extracts a different nested field of the same JSON object, yielding
   "absent" on any read/parse/field failure, independently of the token
   read. -/
def cred_tier_read (content : Option String) : Option String :=
  match content with
  | none => none
  | some s =>
    if s.length > 8192 then none
    else
      match cJSON_Parse s with
      | none => none
      | some root =>
        match cJSON_GetObjectItem root ("claudeAiOauth") with
        | none => none
        | some oauth =>
          match cJSON_GetObjectItem oauth ("subscriptionType") with
          | some (Json.str t) => some (String.mk (t.data.take 31))
          | _ => none

/- Like config_read_access_token: buffer contents after the call. -/
def config_read_subscription_type (content : Option String) (buf : String) : String :=
  (cred_tier_read content).getD buf

/- ------------------------------------------------------------------ -/
/- util.c                                                             -/
/- ------------------------------------------------------------------ -/

/- util_format_time_remaining of util.c.  Both SYSTEMTIMEs are converted to
   FILETIME, i.e. 100-nanosecond ticks since 1601, and subtracted as
   unsigned 64-bit integers; `reset` and `now` here are those tick counts
   (the realistic values are far below 2^64, so Nat arithmetic is exact). -/
def util_format_time_remaining (reset now : Nat) : String :=
  if reset ≤ now then "now"
  else
    let diff_sec := (reset - now) / 10000000
    let days := diff_sec / 86400
    let hours := (diff_sec % 86400) / 3600
    let mins := (diff_sec % 3600) / 60
    if days > 0 then toString days ++ "d " ++ toString hours ++ "h"
    else if hours > 0 then toString hours ++ "h " ++ toString mins ++ "m"
    else toString mins ++ "m"

/- ------------------------------------------------------------------ -/
/- popup.c                                                            -/
/- ------------------------------------------------------------------ -/

/- The four brush colors bar_color can return. -/
inductive BarColor where
  | muted
  | green
  | yellow
  | red
  deriving DecidableEq

/- bar_color of popup.c. -/
def bar_color (util : ℚ) : BarColor :=
  if util < 0 then BarColor.muted
  else if util < 60 then BarColor.green
  else if util < 80 then BarColor.yellow
  else BarColor.red

/- The C cast (int) truncates a double toward zero. -/
def c_trunc (q : ℚ) : ℤ :=
  if 0 ≤ q then Int.floor q else -(Int.floor (-q))

/- draw_progress_bar of popup.c, reduced to its observable geometry: the
   width of the filled rectangle, or none when no fill is painted (negative
   sentinel utilization, or a computed fill of width <= 0).  The background
   rectangle of width w is always painted first. -/
def draw_progress_bar (w : ℤ) (util : ℚ) : Option ℤ :=
  if util < 0 then none
  else
    let fill := c_trunc ((w : ℚ) * (util / 100))
    let fill2 := if fill > w then w else fill
    if fill2 > 0 then some fill2 else none

/- C atoi: optional leading whitespace, optional sign, leading digits. -/
def atoi (s : String) : ℤ :=
  let cs := s.data.dropWhile (fun c => c = ' ' ∨ c = '\t' ∨ c = '\n' ∨
                                       c = '\r' ∨ c = '\x0b' ∨ c = '\x0c')
  let (neg, ds) :=
    match cs with
    | c :: rest =>
      if c = '-' then (true, rest)
      else if c = '+' then (false, rest)
      else (false, cs)
    | [] => (false, cs)
  let v : ℤ := (digitsVal (ds.takeWhile Char.isDigit) : ℤ)
  if neg then -v else v

/- Capitalization of the first character as done for unknown tiers:
   'a'..'z' is shifted to upper case. -/
def capFirst (s : String) : String :=
  match s.data with
  | [] => ""
  | c :: rest =>
    String.mk ((if 97 ≤ c.toNat ∧ c.toNat ≤ 122 then Char.ofNat (c.toNat - 32) else c) :: rest)

/- format_subscription_type of popup.c (the DPI-aware revision).  max_len
   is the wide-char capacity of the output buffer (32 at the call site);
   the unknown-tier branch truncates with wcsncpy to max_len - 1. -/
def format_subscription_type (type : String) (max_len : Nat) : String :=
  if type = "" then "Pro"
  else
    let fromMax : Option String :=
      if type.startsWith ("max_") then
        let multiplier := atoi (type.drop 4)
        if multiplier > 0 then some ("Max " ++ toString (multiplier / 10) ++ "x")
        else none
      else none
    match fromMax with
    | some r => r
    | none =>
      if type = "max" then "Max"
      else if type = "pro" then "Pro"
      else if type = "free" then "Free"
      else String.mk ((capFirst type).data.take (max_len - 1))

/- ------------------------------------------------------------------ -/
/- main.c                                                             -/
/- ------------------------------------------------------------------ -/

/- The three tray icon resources IDI_GREEN / IDI_YELLOW / IDI_RED. -/
inductive IconColor where
  | green
  | yellow
  | red
  deriving DecidableEq

/- update_tray_icon of main.c: the icon follows the maximum of the
   five-hour and seven-day utilizations of the current UsageData,
   thresholds 80 and 95. -/
def update_tray_icon (u : UsageData) : IconColor :=
  let max_util := if u.seven_day_util > u.five_hour_util then u.seven_day_util
                  else u.five_hour_util
  if max_util ≥ 95 then IconColor.red
  else if max_util ≥ 80 then IconColor.yellow
  else IconColor.green

/- The part of AppState (main.c) that the fetch cycle reads or writes. -/
structure AppSt where
  access_token : String
  usage : UsageData
  last_fetch_failed : Bool
  icon : IconColor
  deriving DecidableEq

/- Everything outside the process that one poll cycle observes: the
   credentials file contents at the moment of this cycle's reads (none =
   unreadable) and the network behavior of this cycle's HTTP request. -/
structure CycleEnv where
  credFile : Option String
  net : NetBehavior

/- The observable outcome of one do_fetch call: the updated AppState,
   whether an error balloon was shown, and the bearer token of the HTTP
   request that was issued (none when the cycle made no network call). -/
structure CycleResult where
  st : AppSt
  notified : Bool
  httpToken : Option String

/- do_fetch of main.c, one poll cycle:
   1. re-read the access token into g_app.access_token (buffer keeps its
      old contents when the read fails);
   2. re-read the subscription type into g_app.usage.subscription_type
      (likewise);
   3. empty token buffer: memset g_app.usage to zero, set the error text,
      balloon only if the previous cycle had not already failed; the tray
      icon is NOT updated on this path;
   4. otherwise call api_fetch_usage (whose memset discards the UsageData
      contents, including the tier just stored into it), then update the
      icon, then balloon on a failed result only if the previous cycle had
      not failed, and clear the suppression flag on a valid result. -/
def do_fetch (st : AppSt) (env : CycleEnv) : CycleResult :=
  let token := config_read_access_token env.credFile st.access_token
  let usage_with_tier :=
    { st.usage with
      subscription_type := config_read_subscription_type env.credFile st.usage.subscription_type }
  if token = "" then
    let u := { zeroUsage with error := "No access token found" }
    { st := { access_token := token, usage := u, last_fetch_failed := true,
              icon := st.icon },
      notified := !st.last_fetch_failed,
      httpToken := none }
  else
    let u := api_fetch_usage token env.net usage_with_tier
    let ic := update_tray_icon u
    if u.valid then
      { st := { access_token := token, usage := u, last_fetch_failed := false,
                icon := ic },
        notified := false,
        httpToken := some token }
    else
      { st := { access_token := token, usage := u, last_fetch_failed := true,
                icon := ic },
        notified := !st.last_fetch_failed,
        httpToken := some token }

/- A sequence of timer-driven poll cycles: final state plus the number of
   error balloons shown. -/
def run_cycles (st : AppSt) (envs : List CycleEnv) : AppSt × Nat :=
  match envs with
  | [] => (st, 0)
  | e :: rest =>
    let r := do_fetch st e
    let rec_result := run_cycles r.st rest
    (rec_result.1, (if r.notified then 1 else 0) + rec_result.2)

/- ------------------------------------------------------------------ -/
/- Derived predicates used by the claim statements                    -/
/- ------------------------------------------------------------------ -/

/- This cycle's credentials read yields a usable (non-empty) token. -/
def goodCred (e : CycleEnv) : Prop :=
  ∃ t, cred_token_read e.credFile = some t ∧ t ≠ ""

/- The fetch against this network behavior fails (the token does not
   influence the outcome, see api_fetch_usage_indep below). -/
def netFails (net : NetBehavior) : Prop :=
  (api_fetch_usage ("") net zeroUsage).valid = false

/- ------------------------------------------------------------------ -/
/- Helper lemmas                                                      -/
/- ------------------------------------------------------------------ -/

/- The request headers carry the token but do not influence the response,
   and api_fetch_usage discards its out-buffer: the UsageData produced by a
   fetch depends only on the network behavior. -/
theorem api_fetch_usage_indep (t1 t2 : String) (net : NetBehavior) (o1 o2 : UsageData) :
    api_fetch_usage t1 net o1 = api_fetch_usage t2 net o2 := rfl

theorem api_parse_body_valid (root : Json) : (api_parse_body root).valid = true := rfl

/- Every failure branch of the classifier leaves the -1 sentinels of
   apiBase in the five-hour and seven-day utilizations. -/
theorem api_handle_response_invalid_utils (resp : HttpResponse) :
    (api_handle_response resp).valid = false →
    (api_handle_response resp).five_hour_util = -1 ∧
      (api_handle_response resp).seven_day_util = -1 := by
  unfold api_handle_response
  split
  · intro _; exact ⟨rfl, rfl⟩
  · split
    · intro _; exact ⟨rfl, rfl⟩
    · split
      · intro _; exact ⟨rfl, rfl⟩
      · split
        · intro _; exact ⟨rfl, rfl⟩
        · split
          · intro _; exact ⟨rfl, rfl⟩
          · split
            · intro _; exact ⟨rfl, rfl⟩
            · intro h
              rw [api_parse_body_valid] at h
              cases h

/- ------------------------------------------------------------------ -/
/- C1                                                                 -/
/- ------------------------------------------------------------------ -/

/-- C1: the fetch-outcome classifier maps every non-success outcome to its
documented message.  A non-zero transport error code takes priority over
any status code: 12029, 12002 and 12007 map to the specific connect /
timeout / DNS messages and every other non-zero code to the generic
network-error message carrying the code; with transport error 0, status
401 maps to a message containing "Token expired", 403 to "Access denied",
and every other non-200 status N to "API error (HTTP N)".  All of these
are Failed outcomes. -/
theorem c1_status_and_transport_mapping (resp : HttpResponse) :
    (resp.error_code ≠ 0 →
      (api_handle_response resp).valid = false ∧
      (resp.error_code = 12029 →
        (api_handle_response resp).error = "Cannot connect to api.anthropic.com") ∧
      (resp.error_code = 12002 →
        (api_handle_response resp).error = "Request timed out") ∧
      (resp.error_code = 12007 →
        (api_handle_response resp).error = "DNS resolution failed") ∧
      (resp.error_code ≠ 12029 → resp.error_code ≠ 12002 → resp.error_code ≠ 12007 →
        (api_handle_response resp).error =
          "Network error (code " ++ toString resp.error_code ++ ")")) ∧
    (resp.error_code = 0 →
      (resp.status_code = 401 →
        (api_handle_response resp).valid = false ∧
        (api_handle_response resp).error = "Token expired - reopen Claude Code" ∧
        ("Token expired").data <:+: ((api_handle_response resp).error).data) ∧
      (resp.status_code = 403 →
        (api_handle_response resp).valid = false ∧
        (api_handle_response resp).error = "Access denied") ∧
      (resp.status_code ≠ 200 → resp.status_code ≠ 401 → resp.status_code ≠ 403 →
        (api_handle_response resp).valid = false ∧
        (api_handle_response resp).error =
          "API error (HTTP " ++ toString resp.status_code ++ ")")) := by
  obtain ⟨sc, body, ec⟩ := resp
  refine ⟨fun hne => ?_, fun h0 => ⟨fun h401 => ?_, fun h403 => ?_, fun hn hn1 hn3 => ?_⟩⟩
  · simp only [api_handle_response, if_pos hne]
    refine ⟨rfl, fun h => ?_, fun h => ?_, fun h => ?_, fun h1 h2 h3 => ?_⟩
    · simp only [h]; rfl
    · simp only at h ⊢
      subst h
      rfl
    · simp only at h ⊢
      subst h
      rfl
    · simp only at h1 h2 h3 ⊢
      rw [if_neg h1, if_neg h2, if_neg h3]
  · simp only at h0 h401
    subst h0; subst h401
    refine ⟨rfl, rfl, ⟨[], (" - reopen Claude Code").data, rfl⟩⟩
  · simp only at h0 h403
    subst h0; subst h403
    exact ⟨rfl, rfl⟩
  · simp only at h0 hn hn1 hn3 ⊢
    subst h0
    simp only [api_handle_response]
    rw [if_neg (by simp), if_neg (by simpa using hn1), if_neg (by simpa using hn3),
        if_pos (by simpa using hn)]
    exact ⟨rfl, rfl⟩

/-- Witness for C1 at concrete inputs: a timed-out transport (code 12002)
and an HTTP 350 status. -/
theorem c1_status_and_transport_mapping_witness :
    (api_handle_response ⟨0, none, 12002⟩).error = "Request timed out" ∧
    (api_handle_response ⟨350, none, 0⟩).error = "API error (HTTP 350)" := by
  refine ⟨((c1_status_and_transport_mapping ⟨0, none, 12002⟩).1 (by decide)).2.2.1 rfl, ?_⟩
  have h := ((c1_status_and_transport_mapping ⟨350, none, 0⟩).2 rfl).2.2
    (by decide) (by decide) (by decide)
  exact h.2

/- ------------------------------------------------------------------ -/
/- C9                                                                 -/
/- ------------------------------------------------------------------ -/

/-- C9: for every current time (in 100 ns ticks), a reset at or before now
formats as "now"; 30 seconds ahead as "0m"; exactly 25 hours ahead as
"1d 1h"; exactly 90 minutes ahead as "1h 30m"; and in general any lead of
m minutes and s seconds under one hour formats as "<m>m", flooring the
sub-minute remainder. -/
theorem c9_time_remaining_boundaries (now : Nat) :
    (∀ reset, reset ≤ now → util_format_time_remaining reset now = "now") ∧
    util_format_time_remaining (now + 30 * 10000000) now = "0m" ∧
    util_format_time_remaining (now + 25 * 3600 * 10000000) now = "1d 1h" ∧
    util_format_time_remaining (now + 90 * 60 * 10000000) now = "1h 30m" ∧
    (∀ m s, m < 60 → s < 60 → 0 < m * 60 + s →
      util_format_time_remaining (now + (m * 60 + s) * 10000000) now
        = toString m ++ "m") := by
  refine ⟨fun reset h => ?_, ?_, ?_, ?_, fun m s hm hs hpos => ?_⟩
  · simp only [util_format_time_remaining, if_pos h]
  · simp only [util_format_time_remaining]
    rw [if_neg (by omega)]
    have h1 : now + 30 * 10000000 - now = 300000000 := by omega
    rw [h1]
    decide
  · simp only [util_format_time_remaining]
    rw [if_neg (by omega)]
    have h1 : now + 25 * 3600 * 10000000 - now = 900000000000 := by omega
    rw [h1]
    decide
  · simp only [util_format_time_remaining]
    rw [if_neg (by omega)]
    have h1 : now + 90 * 60 * 10000000 - now = 54000000000 := by omega
    rw [h1]
    decide
  · simp only [util_format_time_remaining]
    rw [if_neg (by omega)]
    have h1 : now + (m * 60 + s) * 10000000 - now = (m * 60 + s) * 10000000 := by omega
    rw [h1]
    have h2 : (m * 60 + s) * 10000000 / 10000000 = m * 60 + s := by omega
    rw [h2]
    have h3 : (m * 60 + s) / 86400 = 0 := by omega
    have h4 : (m * 60 + s) % 86400 / 3600 = 0 := by omega
    have h5 : (m * 60 + s) % 3600 / 60 = m := by omega
    rw [h3, h4, h5]
    simp

/-- Witness for C9 at concrete tick counts. -/
theorem c9_time_remaining_boundaries_witness :
    util_format_time_remaining 3 5 = "now" ∧
    util_format_time_remaining (5 + 30 * 10000000) 5 = "0m" ∧
    util_format_time_remaining (5 + 25 * 3600 * 10000000) 5 = "1d 1h" ∧
    util_format_time_remaining (5 + (2 * 60 + 30) * 10000000) 5 = "2m" :=
  ⟨(c9_time_remaining_boundaries 5).1 3 (by decide),
   (c9_time_remaining_boundaries 5).2.1,
   (c9_time_remaining_boundaries 5).2.2.1,
   (c9_time_remaining_boundaries 5).2.2.2.2 2 30 (by decide) (by decide) (by decide)⟩

/- ------------------------------------------------------------------ -/
/- C6                                                                 -/
/- ------------------------------------------------------------------ -/

/-- C6: parsing a usage window whose field is explicitly null yields
exactly the same window value as parsing one whose field is missing -- the
sentinel utilization -1 and an empty reset timestamp.  This holds for
parse_usage_field (used for five_hour and seven_day) with any field name,
and for the inline extraction of seven_day_opus and seven_day_sonnet in
api_fetch_usage, where the absent/null window leaves the -1 sentinel. -/
theorem c6_null_field_equals_absent_field (root1 root2 : Json) (name : String) (len : Nat) :
    (cJSON_GetObjectItem root1 name = some Json.null →
      parse_usage_field root1 name len = (-1, "")) ∧
    (cJSON_GetObjectItem root2 name = none →
      parse_usage_field root2 name len = (-1, "")) ∧
    (cJSON_GetObjectItem root1 name = some Json.null →
      cJSON_GetObjectItem root2 name = none →
      parse_usage_field root1 name len = parse_usage_field root2 name len) ∧
    (cJSON_GetObjectItem root1 ("seven_day_opus") = some Json.null ∨
       cJSON_GetObjectItem root1 ("seven_day_opus") = none →
      (api_parse_body root1).opus_util = -1) ∧
    (cJSON_GetObjectItem root1 ("seven_day_sonnet") = some Json.null ∨
       cJSON_GetObjectItem root1 ("seven_day_sonnet") = none →
      (api_parse_body root1).sonnet_util = -1) ∧
    (cJSON_GetObjectItem root1 ("five_hour") = some Json.null ∨
       cJSON_GetObjectItem root1 ("five_hour") = none →
      (api_parse_body root1).five_hour_util = -1 ∧
        (api_parse_body root1).five_hour_resets = "") ∧
    (cJSON_GetObjectItem root1 ("seven_day") = some Json.null ∨
       cJSON_GetObjectItem root1 ("seven_day") = none →
      (api_parse_body root1).seven_day_util = -1 ∧
        (api_parse_body root1).seven_day_resets = "") := by
  have hnull : ∀ (r : Json) (n : String),
      cJSON_GetObjectItem r n = some Json.null → parse_usage_field r n len = (-1, "") := by
    intro r n h
    simp [parse_usage_field, h, Json.isNull]
  have habs : ∀ (r : Json) (n : String),
      cJSON_GetObjectItem r n = none → parse_usage_field r n len = (-1, "") := by
    intro r n h
    simp [parse_usage_field, h]
  have hwin : ∀ (r : Json) (n : String),
      cJSON_GetObjectItem r n = some Json.null ∨ cJSON_GetObjectItem r n = none →
      parse_usage_field r n 64 = (-1, "") := by
    intro r n h
    rcases h with h | h
    · simp [parse_usage_field, h, Json.isNull]
    · simp [parse_usage_field, h]
  refine ⟨hnull root1 name, habs root2 name,
          fun h1 h2 => by rw [hnull root1 name h1, habs root2 name h2],
          fun h => ?_, fun h => ?_, fun h => ?_, fun h => ?_⟩
  · rcases h with h | h <;> simp [api_parse_body, h, Json.isNull, apiBase, zeroUsage]
  · rcases h with h | h <;> simp [api_parse_body, h, Json.isNull, apiBase, zeroUsage]
  · have := hwin root1 ("five_hour") h
    constructor <;> simp [api_parse_body, this]
  · have := hwin root1 ("seven_day") h
    constructor <;> simp [api_parse_body, this]

/-- Witness for C6: a response object carrying an explicit null five_hour
and a response object with no five_hour field at all parse to the same
absent window. -/
theorem c6_null_field_equals_absent_field_witness :
    parse_usage_field (Json.obj [("five_hour", Json.null)]) ("five_hour") 64 = (-1, "") ∧
    parse_usage_field (Json.obj []) ("five_hour") 64 = (-1, "") ∧
    parse_usage_field (Json.obj [("five_hour", Json.null)]) ("five_hour") 64
      = parse_usage_field (Json.obj []) ("five_hour") 64 ∧
    (api_parse_body (Json.obj [("seven_day_opus", Json.null)])).opus_util = -1 :=
  ⟨(c6_null_field_equals_absent_field (Json.obj [("five_hour", Json.null)])
      (Json.obj []) ("five_hour") 64).1 rfl,
   (c6_null_field_equals_absent_field (Json.obj [("five_hour", Json.null)])
      (Json.obj []) ("five_hour") 64).2.1 rfl,
   (c6_null_field_equals_absent_field (Json.obj [("five_hour", Json.null)])
      (Json.obj []) ("five_hour") 64).2.2.1 rfl rfl,
   (c6_null_field_equals_absent_field (Json.obj [("seven_day_opus", Json.null)])
      (Json.obj []) ("five_hour") 64).2.2.2.1 (Or.inl rfl)⟩

/- ------------------------------------------------------------------ -/
/- C7                                                                 -/
/- ------------------------------------------------------------------ -/

/-- C7: a utilization outside [0,100] (such as 150) is preserved exactly by
the parser (the JSON number is copied verbatim, no clamping or range check
anywhere on the fetch path); bar_color returns red for every value >= 80;
and the fill rectangle painted by draw_progress_bar never exceeds the
bar's drawable width, without any error path. -/
theorem c7_no_clamping_red_and_capped (root field : Json) (name : String) (len : Nat)
    (x util : ℚ) (w f : ℤ) :
    (cJSON_GetObjectItem root name = some field →
      field.isNull = false →
      cJSON_GetObjectItem field ("utilization") = some (Json.num x) →
      (parse_usage_field root name len).1 = x) ∧
    (80 ≤ util → bar_color util = BarColor.red) ∧
    (draw_progress_bar w util = some f → f ≤ w) := by
  refine ⟨fun h1 h2 h3 => ?_, fun h => ?_, fun h => ?_⟩
  · simp [parse_usage_field, h1, h2, h3]
  · unfold bar_color
    rw [if_neg (by linarith), if_neg (by linarith), if_neg (by linarith)]
  · simp only [draw_progress_bar] at h
    by_cases h0 : util < 0
    · rw [if_pos h0] at h
      cases h
    · rw [if_neg h0] at h
      by_cases hgt : c_trunc ((w : ℚ) * (util / 100)) > w
      · rw [if_pos hgt] at h
        by_cases hp : w > 0
        · rw [if_pos hp] at h
          have hf := Option.some.inj h
          omega
        · rw [if_neg hp] at h
          cases h
      · rw [if_neg hgt] at h
        by_cases hp : c_trunc ((w : ℚ) * (util / 100)) > 0
        · rw [if_pos hp] at h
          have hf := Option.some.inj h
          omega
        · rw [if_neg hp] at h
          cases h

/-- Witness for C7 at utilization 150 on a 200-unit-wide bar: the value is
parsed verbatim, classified red, and the fill is capped at 200. -/
theorem c7_no_clamping_red_and_capped_witness :
    (parse_usage_field (Json.obj [("five_hour", Json.obj [("utilization", Json.num 150)])])
        ("five_hour") 64).1 = 150 ∧
    bar_color 150 = BarColor.red ∧
    (200 : ℤ) ≤ 200 := by
  have h := c7_no_clamping_red_and_capped
    (Json.obj [("five_hour", Json.obj [("utilization", Json.num 150)])])
    (Json.obj [("utilization", Json.num 150)]) ("five_hour") 64 150 150 200 200
  exact ⟨h.1 rfl rfl rfl, h.2.1 (by norm_num),
         h.2.2 (by norm_num [draw_progress_bar, c_trunc])⟩

/- ------------------------------------------------------------------ -/
/- C8                                                                 -/
/- ------------------------------------------------------------------ -/

/-- C8: whenever the access-token buffer is empty after this cycle's
credentials read, the cycle produces the Failed outcome "No access token
found" and issues no HTTP request at all. -/
theorem c8_empty_token_no_network_call (st : AppSt) (env : CycleEnv)
    (h : config_read_access_token env.credFile st.access_token = "") :
    (do_fetch st env).st.usage.error = "No access token found" ∧
    (do_fetch st env).st.usage.valid = false ∧
    (do_fetch st env).httpToken = none := by
  simp [do_fetch, h, zeroUsage]

/-- Witness for C8: an unreadable credentials file and an empty token
buffer from the previous cycle. -/
theorem c8_empty_token_no_network_call_witness :
    (do_fetch ⟨"", zeroUsage, false, IconColor.green⟩
        ⟨none, ⟨none, 200, [], false, false⟩⟩).st.usage.error = "No access token found" ∧
    (do_fetch ⟨"", zeroUsage, false, IconColor.green⟩
        ⟨none, ⟨none, 200, [], false, false⟩⟩).st.usage.valid = false ∧
    (do_fetch ⟨"", zeroUsage, false, IconColor.green⟩
        ⟨none, ⟨none, 200, [], false, false⟩⟩).httpToken = none :=
  c8_empty_token_no_network_call ⟨"", zeroUsage, false, IconColor.green⟩
    ⟨none, ⟨none, 200, [], false, false⟩⟩ rfl

/- ------------------------------------------------------------------ -/
/- C10                                                                -/
/- ------------------------------------------------------------------ -/

/-- A UsageData carrying the -1 sentinels in both icon-relevant windows is
classified green by update_tray_icon. -/
theorem update_tray_icon_sentinels_green (u : UsageData)
    (h1 : u.five_hour_util = -1) (h2 : u.seven_day_util = -1) :
    update_tray_icon u = IconColor.green := by
  unfold update_tray_icon
  rw [h1, h2]
  norm_num

/-- C10: after every poll cycle whose API fetch returns a Failed outcome,
the tray icon is set to green regardless of its previous color: the failed
result carries the sentinel utilization -1 in both the five-hour and
seven-day windows, which falls below the 80 and 95 thresholds. -/
theorem c10_failed_fetch_green_icon (st : AppSt) (env : CycleEnv) (t : String)
    (ht : cred_token_read env.credFile = some t) (hne : t ≠ "")
    (hfail : netFails env.net) :
    (do_fetch st env).st.usage.valid = false ∧
    (do_fetch st env).st.usage.five_hour_util = -1 ∧
    (do_fetch st env).st.usage.seven_day_util = -1 ∧
    (do_fetch st env).st.icon = IconColor.green := by
  have htok : config_read_access_token env.credFile st.access_token = t := by
    simp [config_read_access_token, ht]
  have hvr : (api_handle_response (http_get env.net (api_request_headers t))).valid = false :=
    hfail
  have hutils := api_handle_response_invalid_utils
    (http_get env.net (api_request_headers t)) hvr
  simp only [do_fetch, htok]
  rw [if_neg hne]
  simp only [api_fetch_usage]
  rw [if_neg (by simp [hvr])]
  exact ⟨hvr, hutils.1, hutils.2,
         update_tray_icon_sentinels_green _ hutils.1 hutils.2⟩

set_option maxRecDepth 4096 in
/-- Witness for C10: a cycle with readable credentials and an unreachable
host (transport error 12029), starting from a red icon. -/
theorem c10_failed_fetch_green_icon_witness :
    (do_fetch ⟨"old", zeroUsage, false, IconColor.red⟩
        ⟨some ("\x7b\"claudeAiOauth\":\x7b\"accessToken\":\"A\"\x7d\x7d"),
         ⟨some 12029, 0, [], false, false⟩⟩).st.icon = IconColor.green :=
  (c10_failed_fetch_green_icon ⟨"old", zeroUsage, false, IconColor.red⟩
    ⟨some ("\x7b\"claudeAiOauth\":\x7b\"accessToken\":\"A\"\x7d\x7d"),
     ⟨some 12029, 0, [], false, false⟩⟩ ("A") (by decide) (by decide) rfl).2.2.2

/- ------------------------------------------------------------------ -/
/- C2                                                                 -/
/- ------------------------------------------------------------------ -/

/-- A cycle with a usable token and a failing fetch: the balloon fires
exactly when the previous cycle had not failed, and the suppression flag
is left set. -/
theorem do_fetch_failed_step (st : AppSt) (e : CycleEnv)
    (hg : goodCred e) (hf : netFails e.net) :
    (do_fetch st e).notified = !st.last_fetch_failed ∧
    (do_fetch st e).st.last_fetch_failed = true := by
  obtain ⟨t, ht, hne⟩ := hg
  have htok : config_read_access_token e.credFile st.access_token = t := by
    simp [config_read_access_token, ht]
  have hvr : (api_handle_response (http_get e.net (api_request_headers t))).valid = false := hf
  simp only [do_fetch, htok]
  rw [if_neg hne]
  simp only [api_fetch_usage]
  rw [if_neg (by simp [hvr])]
  exact ⟨rfl, rfl⟩

/-- A cycle with a usable token and a successful fetch: no balloon, and
the suppression flag is cleared. -/
theorem do_fetch_valid_step (st : AppSt) (e : CycleEnv)
    (hg : goodCred e) (hv : ¬ netFails e.net) :
    (do_fetch st e).notified = false ∧
    (do_fetch st e).st.last_fetch_failed = false := by
  obtain ⟨t, ht, hne⟩ := hg
  have htok : config_read_access_token e.credFile st.access_token = t := by
    simp [config_read_access_token, ht]
  have hvt : (api_fetch_usage ("") e.net zeroUsage).valid = true := by
    cases hb : (api_fetch_usage ("") e.net zeroUsage).valid
    · exact absurd hb hv
    · rfl
  have hvr : (api_handle_response (http_get e.net (api_request_headers t))).valid = true := hvt
  simp only [do_fetch, htok]
  rw [if_neg hne]
  simp only [api_fetch_usage]
  rw [if_pos hvr]
  exact ⟨rfl, rfl⟩

/-- While the suppression flag is set, a run of failing cycles followed by
one valid cycle and one more failing cycle produces exactly one balloon
(at the final failure). -/
theorem run_cycles_suppressed_then_one (ok fail2 : CycleEnv)
    (hgok : goodCred ok) (hvok : ¬ netFails ok.net)
    (hgf2 : goodCred fail2) (hff2 : netFails fail2.net) :
    ∀ (fails : List CycleEnv) (st : AppSt), st.last_fetch_failed = true →
    (∀ e ∈ fails, goodCred e ∧ netFails e.net) →
    (run_cycles st (fails ++ [ok, fail2])).2 = 1 := by
  intro fails
  induction fails with
  | nil =>
    intro st hst _
    obtain ⟨hnok, hfok⟩ := do_fetch_valid_step st ok hgok hvok
    obtain ⟨hnf2, _⟩ := do_fetch_failed_step (do_fetch st ok).st fail2 hgf2 hff2
    simp only [List.nil_append, run_cycles]
    rw [hnok, hnf2, hfok]
    simp
  | cons f fs ih =>
    intro st hst hall
    obtain ⟨hgf, hff⟩ := hall f (List.mem_cons_self f fs)
    obtain ⟨hnf, hflag⟩ := do_fetch_failed_step st f hgf hff
    simp only [List.cons_append, run_cycles, List.append_eq]
    rw [hnf, hst]
    have := ih (do_fetch st f).st hflag (fun e he => hall e (List.mem_cons_of_mem f he))
    simp only [List.cons_append] at this
    rw [this]
    simp

/-- C2: over any run of poll cycles with readable, non-empty credentials,
consisting of N >= 1 consecutive failing fetches, then one valid fetch,
then one more failing fetch, starting with the suppression flag clear,
exactly 2 error balloons fire (first failure of each episode, never N+1).
Moreover, cycle by cycle: a failing fetch notifies exactly when the
previous cycle had not failed and sets the suppression flag; a failing
fetch under a set flag is suppressed; a valid fetch never notifies and
clears the flag. -/
theorem c2_single_alert_per_episode :
    (∀ (st0 : AppSt) (fails1 : List CycleEnv) (ok fail2 : CycleEnv),
      st0.last_fetch_failed = false →
      fails1 ≠ [] →
      (∀ e ∈ fails1, goodCred e ∧ netFails e.net) →
      goodCred ok → ¬ netFails ok.net →
      goodCred fail2 → netFails fail2.net →
      (run_cycles st0 (fails1 ++ [ok, fail2])).2 = 2) ∧
    (∀ (st : AppSt) (e : CycleEnv), goodCred e → netFails e.net →
      st.last_fetch_failed = false →
      (do_fetch st e).notified = true ∧ (do_fetch st e).st.last_fetch_failed = true) ∧
    (∀ (st : AppSt) (e : CycleEnv), goodCred e → netFails e.net →
      st.last_fetch_failed = true →
      (do_fetch st e).notified = false ∧ (do_fetch st e).st.last_fetch_failed = true) ∧
    (∀ (st : AppSt) (e : CycleEnv), goodCred e → ¬ netFails e.net →
      (do_fetch st e).notified = false ∧ (do_fetch st e).st.last_fetch_failed = false) := by
  refine ⟨?_, ?_, ?_, ?_⟩
  · intro st0 fails1 ok fail2 h0 hne hall hgok hvok hgf2 hff2
    obtain ⟨f, rest, rfl⟩ : ∃ f rest, fails1 = f :: rest := by
      cases fails1 with
      | nil => exact absurd rfl hne
      | cons f r => exact ⟨f, r, rfl⟩
    obtain ⟨hgf, hff⟩ := hall f (List.mem_cons_self f rest)
    obtain ⟨hnf, hflag⟩ := do_fetch_failed_step st0 f hgf hff
    simp only [List.cons_append, run_cycles, List.append_eq]
    rw [hnf, h0]
    have := run_cycles_suppressed_then_one ok fail2 hgok hvok hgf2 hff2 rest
      (do_fetch st0 f).st hflag (fun e he => hall e (List.mem_cons_of_mem f he))
    rw [this]
    decide
  · intro st e hg hf hst
    obtain ⟨hn, hfl⟩ := do_fetch_failed_step st e hg hf
    rw [hst] at hn
    exact ⟨hn, hfl⟩
  · intro st e hg hf hst
    obtain ⟨hn, hfl⟩ := do_fetch_failed_step st e hg hf
    rw [hst] at hn
    exact ⟨hn, hfl⟩
  · intro st e hg hv
    exact do_fetch_valid_step st e hg hv

/- A concrete credentials file for the closed witnesses: the token reads
back as "A". -/
def credFileA : String := "\x7b\"claudeAiOauth\":\x7b\"accessToken\":\"A\"\x7d\x7d"

set_option maxRecDepth 4096 in
theorem credFileA_reads : cred_token_read (some credFileA) = some ("A") := by decide

/- Network behaviors for the closed witnesses: one failing (host
unreachable) and one succeeding (HTTP 200 with an empty JSON object). -/
def netFail : NetBehavior := ⟨some 12029, 0, [], false, false⟩

def netOk : NetBehavior := ⟨none, 200, ["\x7b\x7d"], false, false⟩

theorem netFail_fails : netFails netFail := rfl

set_option maxRecDepth 4096 in
theorem netOk_succeeds : ¬ netFails netOk := by
  intro h
  unfold netFails at h
  have hv : (api_fetch_usage ("") netOk zeroUsage).valid = true := by decide
  rw [hv] at h
  cases h

set_option maxRecDepth 4096 in
/-- Witness for C2: one failing cycle, one valid cycle, one failing cycle
(N = 1) from a fresh state produce exactly 2 balloons, and the
step-level clauses hold at those concrete cycles. -/
theorem c2_single_alert_per_episode_witness :
    (run_cycles ⟨"A", zeroUsage, false, IconColor.green⟩
      ([⟨some credFileA, netFail⟩] ++ [⟨some credFileA, netOk⟩, ⟨some credFileA, netFail⟩])).2
      = 2 ∧
    (do_fetch ⟨"A", zeroUsage, false, IconColor.green⟩ ⟨some credFileA, netFail⟩).notified
      = true := by
  constructor
  · exact c2_single_alert_per_episode.1 ⟨"A", zeroUsage, false, IconColor.green⟩
      [⟨some credFileA, netFail⟩] ⟨some credFileA, netOk⟩ ⟨some credFileA, netFail⟩
      rfl (by simp)
      (fun e he => by
        rw [List.mem_singleton] at he
        subst he
        exact ⟨⟨"A", credFileA_reads, by decide⟩, netFail_fails⟩)
      ⟨"A", credFileA_reads, by decide⟩ netOk_succeeds
      ⟨"A", credFileA_reads, by decide⟩ netFail_fails
  · exact (c2_single_alert_per_episode.2.1 ⟨"A", zeroUsage, false, IconColor.green⟩
      ⟨some credFileA, netFail⟩ ⟨"A", credFileA_reads, by decide⟩ netFail_fails rfl).1

/- ------------------------------------------------------------------ -/
/- C3                                                                 -/
/- ------------------------------------------------------------------ -/

/- A completed request: transport error 0, status 200, zero body bytes. -/
def netEmptyBody : NetBehavior := ⟨none, 200, [], false, false⟩

/-- C3 counterexample: with transport error code 0 and HTTP status 200 but
an empty (zero-byte) response body, the read loop still hands api.c a
non-NULL empty buffer, so the result is Failed("JSON parse error") -- a
parse-error message -- and not Failed("Empty response") as claimed. -/
theorem c3_empty_body_counterexample :
    netEmptyBody.sendError = none ∧ netEmptyBody.status = 200 ∧
    String.join netEmptyBody.chunks = "" ∧
    (api_fetch_usage ("tok") netEmptyBody zeroUsage).error = "JSON parse error" ∧
    (api_fetch_usage ("tok") netEmptyBody zeroUsage).error ≠ "Empty response" :=
  ⟨rfl, rfl, rfl, rfl, by decide⟩

/-- C3 amended: with transport error 0 and status 200, a zero-byte body
yields a non-NULL empty string in the response, which fails cJSON_Parse,
producing Failed("JSON parse error"); Failed("Empty response") is produced
exactly when http_get returns no body buffer at all with error code 0,
which happens on a mid-read realloc failure. -/
theorem c3_empty_body_amended (token : String) (net : NetBehavior)
    (h1 : net.sendError = none) (h2 : net.status = 200) :
    (net.mallocFail = false → net.reallocFail = false → String.join net.chunks = "" →
      (api_fetch_usage token net zeroUsage).error = "JSON parse error" ∧
      (api_fetch_usage token net zeroUsage).valid = false) ∧
    (net.mallocFail = false → net.reallocFail = true →
      (api_fetch_usage token net zeroUsage).error = "Empty response" ∧
      (api_fetch_usage token net zeroUsage).valid = false) := by
  obtain ⟨se, stc, chunks, mf, rf⟩ := net
  simp only at h1 h2
  subst h1
  subst h2
  constructor
  · intro hm hr hc
    simp only at hm hr hc
    subst hm
    subst hr
    simp only [api_fetch_usage, http_get, api_handle_response, hc]
    decide
  · intro hm hr
    simp only at hm hr
    subst hm
    subst hr
    simp only [api_fetch_usage, http_get, api_handle_response]
    simp [apiBase, zeroUsage]

/-- Witness for the amended C3 at concrete network behaviors. -/
theorem c3_empty_body_amended_witness :
    (api_fetch_usage ("tok") ⟨none, 200, [], false, false⟩ zeroUsage).error
      = "JSON parse error" ∧
    (api_fetch_usage ("tok") ⟨none, 200, [], false, true⟩ zeroUsage).error
      = "Empty response" :=
  ⟨((c3_empty_body_amended ("tok") ⟨none, 200, [], false, false⟩ rfl rfl).1 rfl rfl rfl).1,
   ((c3_empty_body_amended ("tok") ⟨none, 200, [], false, true⟩ rfl rfl).2 rfl rfl).1⟩

/- ------------------------------------------------------------------ -/
/- C4                                                                 -/
/- ------------------------------------------------------------------ -/

set_option maxRecDepth 4096 in
/-- C4 counterexample: cycle 1 reads token "A" from the credentials file;
in cycle 2 the credentials read fails (file unreadable), yet the cycle-2
HTTP request still carries "A" -- the token buffered from the earlier
cycle -- contradicting the claim that the fetch path never uses a token
cached from an earlier cycle when the read fails. -/
theorem c4_token_refresh_counterexample :
    cred_token_read (none : Option String) = none ∧
    (do_fetch ⟨"", zeroUsage, false, IconColor.green⟩
        ⟨some credFileA, netFail⟩).httpToken = some ("A") ∧
    (do_fetch (do_fetch ⟨"", zeroUsage, false, IconColor.green⟩
          ⟨some credFileA, netFail⟩).st
        ⟨none, netFail⟩).httpToken = some ("A") :=
  ⟨rfl, by decide, by decide⟩

/-- C4 amended: when the credentials read succeeds at a cycle's start, the
cycle's HTTP request carries exactly the token just read, regardless of
any previously buffered token; when the read fails, config_read_access_token
leaves the buffer untouched and the cycle proceeds with the previous
cycle's token whenever that is non-empty. -/
theorem c4_token_refresh_amended (st : AppSt) (env : CycleEnv) (t : String) :
    (cred_token_read env.credFile = some t → t ≠ "" →
      (do_fetch st env).httpToken = some t ∧ (do_fetch st env).st.access_token = t) ∧
    (cred_token_read env.credFile = none → st.access_token ≠ "" →
      (do_fetch st env).httpToken = some st.access_token) := by
  constructor
  · intro ht hne
    have htok : config_read_access_token env.credFile st.access_token = t := by
      simp [config_read_access_token, ht]
    simp only [do_fetch, htok]
    rw [if_neg hne]
    split <;> exact ⟨rfl, rfl⟩
  · intro ht hne
    have htok : config_read_access_token env.credFile st.access_token = st.access_token := by
      simp [config_read_access_token, ht]
    simp only [do_fetch, htok]
    rw [if_neg hne]
    split <;> rfl

set_option maxRecDepth 4096 in
/-- Witness for the amended C4: a successful read replaces the buffered
token "old" with the freshly read "A"; a failed read proceeds with the
buffered token. -/
theorem c4_token_refresh_amended_witness :
    (do_fetch ⟨"old", zeroUsage, false, IconColor.green⟩
        ⟨some credFileA, netFail⟩).httpToken = some ("A") ∧
    (do_fetch ⟨"old", zeroUsage, false, IconColor.green⟩
        ⟨none, netFail⟩).httpToken = some ("old") :=
  ⟨((c4_token_refresh_amended ⟨"old", zeroUsage, false, IconColor.green⟩
      ⟨some credFileA, netFail⟩ ("A")).1 credFileA_reads (by decide)).1,
   (c4_token_refresh_amended ⟨"old", zeroUsage, false, IconColor.green⟩
      ⟨none, netFail⟩ ("A")).2 rfl (by decide)⟩

/- ------------------------------------------------------------------ -/
/- C5                                                                 -/
/- ------------------------------------------------------------------ -/

/- A credentials file carrying both a token and the tier "max". -/
def credFileTier : String :=
  "\x7b\"claudeAiOauth\":\x7b\"accessToken\":\"A\",\"subscriptionType\":\"max\"\x7d\x7d"

set_option maxRecDepth 8192 in
/-- C5, failing input: the credentials file provides tier "max" and the
fetch succeeds (HTTP 200, body an empty JSON object), yet the Valid
UsageResult carries subscription_type "" -- do_fetch stores the tier it
just read into g_app.usage, and api_fetch_usage's opening
memset(out, 0, sizeof *out) erases it -- so the popup title falls back to
the default "Pro" instead of reflecting the tier read that cycle. -/
theorem c5_tier_wiped_by_fetch_memset :
    cred_tier_read (some credFileTier) = some ("max") ∧
    (do_fetch ⟨"A", zeroUsage, false, IconColor.green⟩
        ⟨some credFileTier, netOk⟩).st.usage.valid = true ∧
    (do_fetch ⟨"A", zeroUsage, false, IconColor.green⟩
        ⟨some credFileTier, netOk⟩).st.usage.subscription_type = "" ∧
    format_subscription_type
      ((do_fetch ⟨"A", zeroUsage, false, IconColor.green⟩
          ⟨some credFileTier, netOk⟩).st.usage.subscription_type) 32 = "Pro" :=
  ⟨by decide, by decide, by decide, by decide⟩
